import Mathlib

/-!
# Focus Ruler engine — formal model

A shallow embedding of `content-scripts/focus-ruler.js` (the AccessiLens /
ProjectOtter Focus Ruler engine).  The module-level mutable variables of the
script (`shadowHost`/`shadowRoot`/`overlay`, `isEnabled`, `rafId`, `pendingY`,
`currentY`) become fields of an explicit `RulerState` record; each function of
the script becomes a pure state transformer.  JS numbers are modelled by `ℚ`
(every concrete value appearing in the claims is exactly representable).

The host environment (event loop, `requestAnimationFrame` queue, event
listeners) is modelled explicitly: the rAF queue is the list of callback ids
currently scheduled by this component, and `Event`/`step` describe one
dispatch of the host event loop (a message, a mouse move, a resize, or the
firing of a queued frame callback).
-/

namespace FocusRuler

/-- Constant `DEFAULT_HEIGHT = 40` of the script. -/
def DEFAULT_HEIGHT : ℚ := 40

/-- Constant `DEFAULT_OPACITY = 0.75` of the script. -/
def DEFAULT_OPACITY : ℚ := 3 / 4

/-- The overlay element inside the closed shadow root, identified with the CSS
custom properties the script writes on it via
`overlay.style.setProperty`.  The extra `yWrites` field is a ghost history
recording every value ever written to `--ruler-y` on this element (each
`setVar('--ruler-y', ...)` call appends one entry); it instruments the
embedding so that "exactly one commit reaches the surface" is expressible,
and is touched nowhere else. -/
structure Overlay where
  /-- current value of `--ruler-y` (px) -/
  rulerY : ℚ
  /-- current value of `--ruler-height` (px) -/
  rulerHeight : ℚ
  /-- current value of `--dim-opacity` -/
  dimOpacity : ℚ
  /-- current value of `--vw` (px) -/
  vw : ℚ
  /-- current value of `--vh` (px) -/
  vh : ℚ
  /-- ghost: every value written to `--ruler-y`, oldest first -/
  yWrites : List ℚ
  deriving DecidableEq, Repr

/-- The whole state of one injected page context: the script's module
variables plus the host-environment resources the script owns (its two window
listeners, its queued frame callbacks, its `chrome.runtime.onMessage`
registration).  `window.innerWidth/innerHeight` are carried here as well. -/
structure RulerState where
  /-- The `overlay` (and with it `shadowHost`/`shadowRoot`): `none` ↔ the three
  variables are `null` and no surface element is in the document -/
  overlay : Option Overlay
  /-- The `isEnabled` -/
  isEnabled : Bool
  /-- The `rafId` -/
  rafId : Option Nat
  /-- ids of frame callbacks currently queued for this component by the host
  (`requestAnimationFrame` adds one, `cancelAnimationFrame` removes it,
  firing consumes it) -/
  queued : List Nat
  /-- next fresh id the host will hand out -/
  nextId : Nat
  /-- whether the `mousemove`/`resize` window listeners are attached -/
  listeners : Bool
  /-- The `pendingY` -/
  pendingY : Option ℚ
  /-- The `currentY` -/
  currentY : ℚ
  /-- The `window.innerWidth` -/
  innerWidth : ℚ
  /-- The `window.innerHeight` -/
  innerHeight : ℚ
  /-- whether `registerMessageListener()` has run -/
  msgRegistered : Bool
  deriving DecidableEq, Repr

/-- State of a freshly injected page context with viewport `w × h`, before
`init()` runs: all module variables at their initializers, in particular
`currentY = DEFAULT_Y = window.innerHeight / 2`. -/
def mkInitial (w h : ℚ) : RulerState :=
  { overlay := none
    isEnabled := false
    rafId := none
    queued := []
    nextId := 0
    listeners := false
    pendingY := none
    currentY := h / 2
    innerWidth := w
    innerHeight := h
    msgRegistered := false }

/-- The optional-field settings objects passed around by the script
(`{height?, opacity?}`); `none` models an absent / `undefined` field. -/
structure Settings where
  height : Option ℚ := none
  opacity : Option ℚ := none
  deriving DecidableEq, Repr

/-- The `setVar(name, value)`: `overlay?.style.setProperty(name, value)` — a
no-op when `overlay` is `null`, otherwise updates the named custom property.
`f` is the update the particular call performs on the property record. -/
def setVar (f : Overlay → Overlay) (st : RulerState) : RulerState :=
  { st with overlay := st.overlay.map f }

/-- The `createOverlay({height = DEFAULT_HEIGHT, opacity = DEFAULT_OPACITY} = {})`:
removes any previous host element, builds the shadow host/root/overlay and
sets the five CSS variables from `currentY`, the arguments and the viewport.
The ghost `yWrites` starts with the one `--ruler-y` write this function
performs. -/
def createOverlay (s : Settings) (st : RulerState) : RulerState :=
  { st with
      overlay := some
        { rulerY := st.currentY
          rulerHeight := s.height.getD DEFAULT_HEIGHT
          dimOpacity := s.opacity.getD DEFAULT_OPACITY
          vw := st.innerWidth
          vh := st.innerHeight
          yWrites := [st.currentY] } }

/-- The `destroyOverlay()`: removes the host element and nulls the three
variables. Idempotent. -/
def destroyOverlay (st : RulerState) : RulerState :=
  { st with overlay := none }

/-- The `applySettings({height, opacity} = {})`: conditionally writes
`--ruler-height` / `--dim-opacity`, each only when the field is present; each
write goes through `setVar`, hence is a no-op while no overlay exists. -/
def applySettings (s : Settings) (st : RulerState) : RulerState :=
  let st1 := match s.height with
    | some hv => setVar (fun o => { o with rulerHeight := hv }) st
    | none => st
  match s.opacity with
    | some ov => setVar (fun o => { o with dimOpacity := ov }) st1
    | none => st1

/-- The `requestAnimationFrame(loop)`: the host queues one one-shot frame
callback and returns its id. -/
def rafRequest (st : RulerState) : Nat × RulerState :=
  (st.nextId, { st with queued := st.queued ++ [st.nextId], nextId := st.nextId + 1 })

/-- The `cancelAnimationFrame(id)`: the host drops the queued callback with this
id, if still queued. -/
def rafCancel (id : Nat) (st : RulerState) : RulerState :=
  { st with queued := st.queued.erase id }

/-- The `startRaf()`'s trailing `rafId = requestAnimationFrame(loop)` (also the
last line of `loop` itself). -/
def startRaf (st : RulerState) : RulerState :=
  let p := rafRequest st
  { p.2 with rafId := some p.1 }

/-- The `stopRaf()`: `if (rafId !== null) { cancelAnimationFrame(rafId); rafId = null; }`. -/
def stopRaf (st : RulerState) : RulerState :=
  match st.rafId with
  | none => st
  | some id => { rafCancel id st with rafId := none }

/-- The body of `loop()` in `startRaf`, run when a queued frame callback
fires (the callback itself has already been consumed from the queue):
`if (!isEnabled) return;` then commit `pendingY` to `currentY` and
`--ruler-y` if present, then self-reschedule. -/
def loopBody (st : RulerState) : RulerState :=
  if st.isEnabled = false then st
  else
    let st1 := match st.pendingY with
      | some y =>
          setVar (fun o => { o with rulerY := y, yWrites := o.yWrites ++ [y] })
            { st with currentY := y, pendingY := none }
      | none => st
    startRaf st1

/-- The `enable(settings = {})`. -/
def enable (s : Settings) (st : RulerState) : RulerState :=
  if st.isEnabled then applySettings s st
  else
    let st1 := { st with isEnabled := true }
    let st2 := createOverlay s st1
    let st3 := { st2 with listeners := true }
    startRaf st3

/-- The `disable()`. -/
def disable (st : RulerState) : RulerState :=
  if st.isEnabled = false then st
  else
    let st1 := { st with isEnabled := false }
    let st2 := stopRaf st1
    let st3 := { st2 with listeners := false }
    destroyOverlay st3

/-- The `onMouseMove(e)`: `pendingY = e.clientY`. -/
def onMouseMove (clientY : ℚ) (st : RulerState) : RulerState :=
  { st with pendingY := some clientY }

/-- The `onResize()`: re-reads `window.innerWidth/innerHeight` into `--vw`/`--vh`. -/
def onResize (st : RulerState) : RulerState :=
  setVar (fun o => { o with vw := st.innerWidth, vh := st.innerHeight }) st

/-- The state snapshot carried by a `REAPPLY_STATE` message (`message.state`);
the handler reads `focusRulerEnabled` (truthiness), `rulerHeight` and
`dimOpacity`, the latter two possibly `undefined`. -/
structure Snapshot where
  focusRulerEnabled : Bool := false
  rulerHeight : Option ℚ := none
  dimOpacity : Option ℚ := none
  deriving DecidableEq, Repr

/-- The four message shapes the `chrome.runtime.onMessage` listener
dispatches on, plus a catch-all for every other `message.type`. -/
inductive Msg where
  | focusRulerToggle (enabled : Bool) (settings : Option Settings)
  | focusRulerUpdateSettings (settings : Option Settings)
  | focusRulerGetState
  | reapplyState (state : Option Snapshot)
  | other
  deriving DecidableEq, Repr

/-- The object passed to `sendResponse`; absent fields are `none`. -/
structure Response where
  ok : Bool
  enabled : Option Bool := none
  y : Option ℚ := none
  deriving DecidableEq, Repr

/-- The `onMessage` listener body: the new state together with the response
sent (the `default` branch sends none). -/
def handleMessage (m : Msg) (st : RulerState) : RulerState × Option Response :=
  match m with
  | .focusRulerToggle en s =>
      if en then
        (enable { height := s.bind Settings.height, opacity := s.bind Settings.opacity } st,
          some { ok := true, enabled := some en })
      else
        (disable st, some { ok := true, enabled := some en })
  | .focusRulerUpdateSettings s =>
      (applySettings (s.getD {}) st, some { ok := true })
  | .focusRulerGetState =>
      (st, some { ok := true, enabled := some st.isEnabled, y := some st.currentY })
  | .reapplyState os =>
      let s := os.getD {}
      if s.focusRulerEnabled then
        (enable { height := s.rulerHeight, opacity := s.dimOpacity } st, some { ok := true })
      else
        (disable st, some { ok := true })
  | .other => (st, none)

/-- Outcome of the `chrome.storage.local.get` call in `init()`: either the
stored values for the three keys (each possibly absent), or a thrown error —
e.g. a restricted page context without extension-storage access. -/
inductive StorageResult where
  | ok (enabled : Option Bool) (height : Option ℚ) (opacity : Option ℚ)
  | err
  deriving DecidableEq, Repr

/-- The `init()`: the `try` block enables only when the stored flag is strictly
`=== true`, seeding height/opacity with `?? DEFAULT_*`; a thrown storage
error is caught (and logged), so `init` is total — it never propagates the
failure — and in every case `registerMessageListener()` still runs. -/
def init (r : StorageResult) (st : RulerState) : RulerState :=
  let st1 := match r with
    | .ok e hgt op =>
        if e = some true then
          enable { height := some (hgt.getD DEFAULT_HEIGHT)
                   opacity := some (op.getD DEFAULT_OPACITY) } st
        else st
    | .err => st
  { st1 with msgRegistered := true }

/-- One dispatch of the host event loop touching this component: a runtime
message, a `mousemove` or `resize` event on `window`, or the firing of the
queued frame callback `id`.  Listener-gated events reach the handlers only
while the listeners are attached; a frame callback fires only while still
queued (it is consumed as it fires). -/
inductive Event where
  | msg (m : Msg)
  | mouseMove (clientY : ℚ)
  | resize (w h : ℚ)
  | tick (id : Nat)
  deriving DecidableEq, Repr

/-- Small-step semantics of one host-event dispatch. -/
def step (e : Event) (st : RulerState) : RulerState :=
  match e with
  | .msg m => (handleMessage m st).1
  | .mouseMove y => if st.listeners then onMouseMove y st else st
  | .resize w h =>
      let st1 := { st with innerWidth := w, innerHeight := h }
      if st1.listeners then onResize st1 else st1
  | .tick id =>
      if id ∈ st.queued then loopBody { st with queued := st.queued.erase id }
      else st

/-- States of one page context reachable from injection: the script runs
`init()` against storage outcome `r` on the fresh state, then any sequence of
host-event dispatches. -/
inductive Reachable (w h : ℚ) (r : StorageResult) : RulerState → Prop
  | init : Reachable w h r (init r (mkInitial w h))
  | step (e : Event) {st : RulerState} :
      Reachable w h r st → Reachable w h r (step e st)

/-! ## The lifecycle invariant and its preservation -/

/-- The lifecycle invariant of one page context: the overlay exists, the
window listeners are attached, and `rafId` holds a callback id, each exactly
when `isEnabled`; and the host's queue of frame callbacks registered by this
component is exactly the one `rafId` points to (so it never holds more than
one entry). -/
def Inv (st : RulerState) : Prop :=
  st.overlay.isSome = st.isEnabled ∧
  st.listeners = st.isEnabled ∧
  st.rafId.isSome = st.isEnabled ∧
  st.queued = st.rafId.toList

theorem inv_mkInitial (w h : ℚ) : Inv (mkInitial w h) := by
  simp [Inv, mkInitial]

/-- The `applySettings` touches only the overlay's properties: every other field
is unchanged, and it cannot create or destroy the overlay. -/
theorem applySettings_fields (s : Settings) (st : RulerState) :
    (applySettings s st).isEnabled = st.isEnabled ∧
    (applySettings s st).listeners = st.listeners ∧
    (applySettings s st).rafId = st.rafId ∧
    (applySettings s st).queued = st.queued ∧
    (applySettings s st).nextId = st.nextId ∧
    (applySettings s st).pendingY = st.pendingY ∧
    (applySettings s st).currentY = st.currentY ∧
    (applySettings s st).innerWidth = st.innerWidth ∧
    (applySettings s st).innerHeight = st.innerHeight ∧
    (applySettings s st).msgRegistered = st.msgRegistered ∧
    (applySettings s st).overlay.isSome = st.overlay.isSome := by
  cases hh : s.height <;> cases ho : s.opacity <;> cases hov : st.overlay <;>
    simp [applySettings, hh, ho, setVar, hov]

/-- A state that agrees with an `Inv`-satisfying state on every
invariant-relevant observation satisfies `Inv` as well. -/
theorem inv_of_like (st st' : RulerState)
    (ho : st'.overlay.isSome = st.overlay.isSome)
    (he : st'.isEnabled = st.isEnabled)
    (hli : st'.listeners = st.listeners)
    (hra : st'.rafId = st.rafId)
    (hq : st'.queued = st.queued)
    (h : Inv st) : Inv st' := by
  obtain ⟨h1, h2, h3, h4⟩ := h
  exact ⟨ho.trans (h1.trans he.symm), hli.trans (h2.trans he.symm),
    (congrArg Option.isSome hra).trans (h3.trans he.symm),
    hq.trans (h4.trans (congrArg Option.toList hra.symm))⟩

theorem inv_applySettings (s : Settings) (st : RulerState) (h : Inv st) :
    Inv (applySettings s st) := by
  obtain ⟨e, l, r, q, -, -, -, -, -, -, o⟩ := applySettings_fields s st
  exact inv_of_like st _ o e l r q h

theorem inv_enable (s : Settings) (st : RulerState) (h : Inv st) :
    Inv (enable s st) := by
  by_cases he : st.isEnabled
  · simpa [enable, he] using inv_applySettings s st h
  · obtain ⟨h1, h2, h3, h4⟩ := h
    have hraf : st.rafId = none := by
      cases hr : st.rafId <;> simp [hr, he] at h3 ⊢
    have hq : st.queued = [] := by simp [h4, hraf]
    simp [enable, he, createOverlay, startRaf, rafRequest, Inv, hq]

theorem inv_disable (st : RulerState) (h : Inv st) : Inv (disable st) := by
  by_cases he : st.isEnabled
  · obtain ⟨h1, h2, h3, h4⟩ := h
    obtain ⟨id, hr⟩ := Option.isSome_iff_exists.mp (h3.trans (by simp [he]))
    have hq : st.queued = [id] := by simp [h4, hr]
    simp [disable, he, stopRaf, hr, rafCancel, destroyOverlay, Inv, hq]
  · simpa [disable, he] using ⟨h.1, h.2.1, h.2.2.1, h.2.2.2⟩

theorem inv_handleMessage (m : Msg) (st : RulerState) (h : Inv st) :
    Inv (handleMessage m st).1 := by
  cases m with
  | focusRulerToggle en s =>
      cases en <;>
        simp only [handleMessage, if_true, if_false, Bool.false_eq_true]
      · exact inv_disable st h
      · exact inv_enable _ st h
  | focusRulerUpdateSettings s => exact inv_applySettings _ st h
  | focusRulerGetState => exact h
  | reapplyState os =>
      by_cases hb : (os.getD {}).focusRulerEnabled
      · simpa [handleMessage, hb] using inv_enable _ st h
      · simpa [handleMessage, hb] using inv_disable st h
  | other => exact h

theorem inv_init (r : StorageResult) (w h : ℚ) :
    Inv (init r (mkInitial w h)) := by
  have base := inv_mkInitial w h
  cases r with
  | ok e hgt op =>
      by_cases he : e = some true
      · have := inv_enable
          { height := some (hgt.getD DEFAULT_HEIGHT)
            opacity := some (op.getD DEFAULT_OPACITY) } _ base
        simpa [init, he, Inv] using this
      · simpa [init, he, Inv] using base
  | err => simpa [init, Inv] using base

theorem inv_step (e : Event) (st : RulerState) (h : Inv st) :
    Inv (step e st) := by
  cases e with
  | msg m => exact inv_handleMessage m st h
  | mouseMove y =>
      by_cases hl : st.listeners <;>
        simp only [step, hl, if_true, Bool.false_eq_true, if_false]
      · exact inv_of_like st (onMouseMove y st) rfl rfl rfl rfl rfl h
      · exact h
  | resize w hgt =>
      by_cases hl : st.listeners <;>
        simp only [step, hl, if_true, Bool.false_eq_true, if_false]
      · refine inv_of_like st _ ?_ rfl (by simp [onResize, setVar, hl]) rfl rfl h
        cases hov : st.overlay <;> simp [onResize, setVar, hov]
      · exact inv_of_like st _ rfl rfl (by simp [hl]) rfl rfl h
  | tick id =>
      obtain ⟨h1, h2, h3, h4⟩ := h
      by_cases hm : id ∈ st.queued
      · obtain ⟨j, hr⟩ : ∃ j, st.rafId = some j := by
          cases hrr : st.rafId with
          | none => simp [h4, hrr] at hm
          | some j => exact ⟨j, rfl⟩
        have hid : id = j := by simpa [h4, hr] using hm
        have hen : st.isEnabled = true := by simpa [hr] using h3
        have hq : st.queued = [j] := by simp [h4, hr]
        obtain ⟨o, hov⟩ : ∃ o, st.overlay = some o := by
          cases hoo : st.overlay with
          | none => rw [hoo] at h1; simp [hen] at h1
          | some o => exact ⟨o, rfl⟩
        have hl : st.listeners = true := h2.trans hen
        subst hid
        cases hp : st.pendingY <;>
          simp [step, hm, loopBody, hen, hp, hq, setVar, startRaf, rafRequest,
            Inv, hov, hl]
      · simp only [step, hm, if_false, Bool.false_eq_true]
        exact ⟨h1, h2, h3, h4⟩

/-- Every reachable state of the page context satisfies the lifecycle
invariant. -/
theorem reachable_inv (w h : ℚ) (r : StorageResult) (st : RulerState)
    (hr : Reachable w h r st) : Inv st := by
  induction hr with
  | init => exact inv_init r w h
  | step e _ ih => exact inv_step e _ ih

/-! ## Sample delivery between frame ticks -/

/-- Delivery of a burst of `mousemove` events, oldest first. -/
def deliverMoves (ys : List ℚ) (st : RulerState) : RulerState :=
  ys.foldl (fun s y => step (.mouseMove y) s) st

/-- A `mousemove` dispatch never touches the overlay (whether or not the
listener is attached): `onMouseMove` writes only `pendingY`. -/
theorem step_mouseMove_overlay (y : ℚ) (st : RulerState) :
    (step (.mouseMove y) st).overlay = st.overlay := by
  by_cases hl : st.listeners <;> simp [step, hl, onMouseMove]

/-- No burst of pointer samples ever touches the overlay. -/
theorem deliverMoves_overlay (ys : List ℚ) (st : RulerState) :
    (deliverMoves ys st).overlay = st.overlay := by
  induction ys generalizing st with
  | nil => rfl
  | cons y ys ih =>
      calc (deliverMoves (y :: ys) st).overlay
          = (deliverMoves ys (step (.mouseMove y) st)).overlay := by
            simp [deliverMoves]
        _ = (step (.mouseMove y) st).overlay := ih _
        _ = st.overlay := step_mouseMove_overlay y st

/-- With the listener attached, a non-empty burst leaves the state unchanged
except that `pendingY` holds the last sample: last-write-wins, no queue. -/
theorem deliverMoves_pending (ys : List ℚ) (L : ℚ) :
    ∀ st : RulerState, st.listeners = true → ys.getLast? = some L →
      deliverMoves ys st = { st with pendingY := some L } := by
  induction ys with
  | nil => intro st _ hL; simp at hL
  | cons y ys ih =>
      intro st hl hL
      cases ys with
      | nil =>
          simp only [List.getLast?_singleton, Option.some.injEq] at hL
          simp [deliverMoves, step, hl, onMouseMove, hL]
      | cons y2 ys2 =>
          have hL2 : (y2 :: ys2).getLast? = some L := by
            simpa [List.getLast?_cons_cons] using hL
          have hstep : deliverMoves (y :: y2 :: ys2) st
              = deliverMoves (y2 :: ys2) (onMouseMove y st) := by
            simp [deliverMoves, step, hl, onMouseMove]
          rw [hstep, ih (onMouseMove y st) hl hL2]
          exact rfl

/-! ## Shared concrete states for the closed instances -/

/-- A freshly injected context (viewport 100 × 800) whose storage read
failed: disabled, message listener registered. -/
def exampleBase : RulerState := init .err (mkInitial 100 800)

/-- The `exampleBase` after `enable({height: 40, opacity: 0.75})`. -/
def exampleEnabled : RulerState :=
  enable { height := some 40, opacity := some DEFAULT_OPACITY } exampleBase

/-! ## C1 -/

/-- C1, counterexample.  The claim says a `FOCUS_RULER_UPDATE_SETTINGS`
received while disabled retains the provided thickness/intensity so that the
next settings-free `enable` applies them.  On the code, `applySettings`
writes only through `overlay?.style.setProperty`, a no-op while the overlay
is `null`; after the cycle enable(40, 0.75) → disable → updateSettings(60,
0.3) → enable(no settings), the fresh surface carries the defaults 40 and
0.75, not 60 and 0.3. -/
theorem settings_lost_while_disabled_cex :
    ((enable {} (applySettings { height := some 60, opacity := some (3/10) }
        (disable exampleEnabled))).overlay.map Overlay.rulerHeight = some 40 ∧
      (enable {} (applySettings { height := some 60, opacity := some (3/10) }
        (disable exampleEnabled))).overlay.map Overlay.dimOpacity = some (3/4)) ∧
    ¬ ((enable {} (applySettings { height := some 60, opacity := some (3/10) }
        (disable exampleEnabled))).overlay.map Overlay.rulerHeight = some 60 ∧
      (enable {} (applySettings { height := some 60, opacity := some (3/10) }
        (disable exampleEnabled))).overlay.map Overlay.dimOpacity = some (3/10)) := by
  refine ⟨⟨rfl, rfl⟩, ?_⟩
  rintro ⟨h60, -⟩
  rw [show (enable {} (applySettings { height := some 60, opacity := some (3/10) }
        (disable exampleEnabled))).overlay.map Overlay.rulerHeight = some 40 from rfl]
    at h60
  exact absurd (Option.some.inj h60) (by norm_num)

/-- C1, amended.  `updateSettings` while disabled is safe — it raises nothing
and changes no state at all — but the provided fields are *discarded*, not
retained: a subsequent `enable` that supplies no settings creates the surface
with the defaults (`thickness 40`, `intensity 0.75`). -/
theorem updateSettings_disabled_noop (s : Settings) (st : RulerState)
    (hdis : st.isEnabled = false) (hov : st.overlay = none) :
    applySettings s st = st ∧
    (enable {} (applySettings s st)).overlay.map
        (fun o => (o.rulerHeight, o.dimOpacity))
      = some (DEFAULT_HEIGHT, DEFAULT_OPACITY) := by
  have hsv : ∀ f, setVar f st = st := by
    intro f
    simp only [setVar, hov, Option.map_none']
    rw [← hov]
  have hid : applySettings s st = st := by
    cases hh : s.height <;> cases ho : s.opacity <;>
      simp [applySettings, hh, ho, hsv]
  refine ⟨hid, ?_⟩
  rw [hid]
  simp [enable, hdis, createOverlay, startRaf, rafRequest]

/-- C1, witness for the amended theorem. -/
theorem updateSettings_disabled_noop_witness :
    applySettings { height := some 60, opacity := some (3/10) } exampleBase
        = exampleBase ∧
    (enable {} (applySettings { height := some 60, opacity := some (3/10) }
        exampleBase)).overlay.map (fun o => (o.rulerHeight, o.dimOpacity))
      = some (DEFAULT_HEIGHT, DEFAULT_OPACITY) :=
  updateSettings_disabled_noop _ exampleBase (by decide) (by decide)

/-! ## C2 -/

/-- C2: between two consecutive frame ticks, a burst of pointer samples
`ys` (none of them touching the surface — first conjunct) ends with the one
tick committing exactly the last sample `L`: the committed `currentY` is `L`,
the surface's `--ruler-y` is `L`, and the surface's write history grows by
exactly the single entry `L` — one commit, not `ys.length`, and no
intermediate sample is ever written. -/
theorem tick_commits_last_sample (st : RulerState) (ys : List ℚ) (L : ℚ)
    (id : Nat) (o : Overlay)
    (hen : st.isEnabled = true) (hl : st.listeners = true)
    (hq : st.queued = [id]) (hov : st.overlay = some o)
    (hL : ys.getLast? = some L) :
    (∀ pre : List ℚ, (deliverMoves pre st).overlay = st.overlay) ∧
    (step (.tick id) (deliverMoves ys st)).currentY = L ∧
    (step (.tick id) (deliverMoves ys st)).overlay.map Overlay.rulerY
      = some L ∧
    (step (.tick id) (deliverMoves ys st)).overlay.map Overlay.yWrites
      = some (o.yWrites ++ [L]) := by
  refine ⟨fun pre => deliverMoves_overlay pre st, ?_⟩
  rw [deliverMoves_pending ys L st hl hL]
  simp [step, hq, loopBody, hen, setVar, startRaf, rafRequest, hov]

/-- C2, witness: three samples 10, 20, 30 delivered in the enabled example
state; the tick commits 30 only, appending exactly one write. -/
theorem tick_commits_last_sample_witness :
    (∀ pre : List ℚ,
      (deliverMoves pre exampleEnabled).overlay = exampleEnabled.overlay) ∧
    (step (.tick 0) (deliverMoves [10, 20, 30] exampleEnabled)).currentY = 30 ∧
    (step (.tick 0) (deliverMoves [10, 20, 30] exampleEnabled)).overlay.map
        Overlay.rulerY = some 30 ∧
    (step (.tick 0) (deliverMoves [10, 20, 30] exampleEnabled)).overlay.map
        Overlay.yWrites = some ([800/2, 30] : List ℚ) :=
  tick_commits_last_sample exampleEnabled [10, 20, 30] 30 0
    { rulerY := 800/2, rulerHeight := 40, dimOpacity := 3/4, vw := 100, vh := 800
      yWrites := [800/2] }
    (by decide) (by decide) (by decide) rfl rfl

/-! ## Disable: teardown lemmas -/

/-- The `disable()` on an already-disabled controller returns immediately. -/
theorem disable_noop (st : RulerState) (h : st.isEnabled = false) :
    disable st = st := by
  simp [disable, h]

/-- What `disable` leaves behind, on any state satisfying the invariant:
everything torn down, `pendingY`/`currentY` untouched. -/
theorem disable_fields (st : RulerState) (h : Inv st) :
    (disable st).isEnabled = false ∧ (disable st).queued = [] ∧
    (disable st).listeners = false ∧ (disable st).rafId = none ∧
    (disable st).overlay = none ∧ (disable st).pendingY = st.pendingY ∧
    (disable st).currentY = st.currentY ∧ (disable st).nextId = st.nextId := by
  obtain ⟨h1, h2, h3, h4⟩ := h
  by_cases he : st.isEnabled
  · obtain ⟨i, hra⟩ := Option.isSome_iff_exists.mp (h3.trans (by simp [he]))
    simp [disable, he, stopRaf, hra, rafCancel, destroyOverlay, h4]
  · have hb : st.isEnabled = false := by simpa using he
    have hra : st.rafId = none := by
      cases hrr : st.rafId <;> simp [hrr, hb] at h3 ⊢
    have hovn : st.overlay = none := by
      cases hoo : st.overlay <;> simp [hoo, hb] at h1 ⊢
    simp [disable_noop st hb, hb, h4, hra, hovn, h2.trans hb]

/-- The `exampleEnabled` is a reachable state: it arises from the toggle-on
command delivered to the fresh context. -/
theorem exampleEnabled_reachable : Reachable 100 800 .err exampleEnabled :=
  Reachable.step
    (.msg (.focusRulerToggle true
      (some { height := some 40, opacity := some DEFAULT_OPACITY })))
    Reachable.init

/-! ## C3 -/

/-- C3: after `disable()` on any reachable state, the component has no queued
frame callback left (so no further tick of its loop ever fires), its
listeners are detached (so no pointer sample is ever processed), an
already-queued-then-fired tick or pointer event dispatched against the
disabled state changes nothing, and — the flag check at the top of `loop` —
running the loop body on any disabled state performs no surface update and
reschedules nothing. -/
theorem disable_cancels_all (w h : ℚ) (r : StorageResult) (st : RulerState)
    (hr : Reachable w h r st) :
    (disable st).isEnabled = false ∧
    (disable st).queued = [] ∧
    (disable st).listeners = false ∧
    (∀ id, step (.tick id) (disable st) = disable st) ∧
    (∀ y, step (.mouseMove y) (disable st) = disable st) ∧
    (∀ s, s.isEnabled = false → loopBody s = s) := by
  obtain ⟨he, hq, hl, -, -, -, -, -⟩ :=
    disable_fields st (reachable_inv w h r st hr)
  refine ⟨he, hq, hl, ?_, ?_, ?_⟩
  · intro id; simp [step, hq]
  · intro y; simp [step, hl]
  · intro s hs; simp [loopBody, hs]

/-- C3, witness: all of it at the concrete enabled reachable state. -/
theorem disable_cancels_all_witness :
    (disable exampleEnabled).isEnabled = false ∧
    (disable exampleEnabled).queued = [] ∧
    step (.tick 0) (disable exampleEnabled) = disable exampleEnabled ∧
    step (.mouseMove 50) (disable exampleEnabled) = disable exampleEnabled ∧
    loopBody (disable exampleEnabled) = disable exampleEnabled :=
  let H := disable_cancels_all 100 800 .err exampleEnabled exampleEnabled_reachable
  ⟨H.1, H.2.1, H.2.2.2.1 0, H.2.2.2.2.1 50, H.2.2.2.2.2 _ H.1⟩

/-! ## C4 -/

/-- C4: in every reachable state at most one frame callback registered by
this component is pending; and the start path invoked while the loop is
already running (an `enable` on an enabled controller, the only call site of
`startRaf`) schedules nothing — queue, `rafId` and the id counter are
untouched. -/
theorem no_double_schedule (w h : ℚ) (r : StorageResult) (st : RulerState)
    (hr : Reachable w h r st) :
    st.queued.length ≤ 1 ∧
    (st.isEnabled = true → ∀ s : Settings,
      (enable s st).queued = st.queued ∧ (enable s st).rafId = st.rafId ∧
      (enable s st).nextId = st.nextId) := by
  obtain ⟨h1, h2, h3, h4⟩ := reachable_inv w h r st hr
  constructor
  · rw [h4]; cases st.rafId <;> simp
  · intro he s
    have hes : enable s st = applySettings s st := by simp [enable, he]
    rw [hes]
    obtain ⟨-, -, hra, hq, hn, -⟩ := applySettings_fields s st
    exact ⟨hq, hra, hn⟩

/-- C4, witness: the enabled reachable state has exactly the one pending
callback, and a second `enable` leaves the scheduler untouched. -/
theorem no_double_schedule_witness :
    exampleEnabled.queued.length ≤ 1 ∧
    (enable { height := some 50 } exampleEnabled).queued
        = exampleEnabled.queued ∧
    (enable { height := some 50 } exampleEnabled).rafId
        = exampleEnabled.rafId :=
  let H := no_double_schedule 100 800 .err exampleEnabled exampleEnabled_reachable
  ⟨H.1, (H.2 (by decide) { height := some 50 }).1,
    (H.2 (by decide) { height := some 50 }).2.1⟩

/-! ## C5 -/

/-- The `enable` on an already-enabled controller is exactly the settings
update: the first line `if (isEnabled) { applySettings(settings); return; }`. -/
theorem enable_enabled (s : Settings) (st : RulerState)
    (he : st.isEnabled = true) : enable s st = applySettings s st := by
  unfold enable
  rw [if_pos he]

theorem applySettings_applySettings (s : Settings) (st : RulerState) :
    applySettings s (applySettings s st) = applySettings s st := by
  cases hh : s.height <;> cases ho : s.opacity <;> cases hov : st.overlay <;>
    simp [applySettings, hh, ho, setVar, hov]

theorem applySettings_enable_fresh (s : Settings) (st : RulerState)
    (hd : st.isEnabled = false) :
    applySettings s (enable s st) = enable s st := by
  cases hh : s.height <;> cases ho : s.opacity <;>
    simp [enable, hd, createOverlay, startRaf, rafRequest, applySettings,
      hh, ho, setVar]

/-- C5: the lifecycle is idempotent.  `enable` twice with the same settings
equals `enable` once (whole-state equality, so the surface is not re-created,
no listener re-attached, no loop restarted); an `enable` on an enabled
controller is exactly the settings update `applySettings`; `disable` is
idempotent and a no-op (no exception — it is a total function — and no state
change) on a disabled controller. -/
theorem lifecycle_idempotent (s : Settings) (st : RulerState) :
    enable s (enable s st) = enable s st ∧
    (st.isEnabled = true → enable s st = applySettings s st) ∧
    disable (disable st) = disable st ∧
    (st.isEnabled = false → disable st = st) := by
  have hdd : disable (disable st) = disable st := by
    by_cases he : st.isEnabled
    · refine disable_noop _ ?_
      cases hra : st.rafId <;>
        simp [disable, he, stopRaf, hra, rafCancel, destroyOverlay]
    · have hb : st.isEnabled = false := by simpa using he
      simp [disable_noop st hb]
  have hee : enable s (enable s st) = enable s st := by
    by_cases he : st.isEnabled
    · rw [enable_enabled s st he,
        enable_enabled s (applySettings s st)
          ((applySettings_fields s st).1.trans he)]
      exact applySettings_applySettings s st
    · have hb : st.isEnabled = false := by simpa using he
      have hE : (enable s st).isEnabled = true := by
        simp [enable, hb, createOverlay, startRaf, rafRequest]
      rw [enable_enabled s (enable s st) hE, applySettings_enable_fresh s st hb]
  exact ⟨hee, enable_enabled s st, hdd, disable_noop st⟩

/-- C5, witness: double-enable with the same settings and disable on the
disabled fresh context. -/
theorem lifecycle_idempotent_witness :
    enable { height := some 40, opacity := some DEFAULT_OPACITY }
        (enable { height := some 40, opacity := some DEFAULT_OPACITY }
          exampleBase)
      = enable { height := some 40, opacity := some DEFAULT_OPACITY }
          exampleBase ∧
    enable { height := some 40, opacity := some DEFAULT_OPACITY }
        exampleEnabled
      = applySettings { height := some 40, opacity := some DEFAULT_OPACITY }
          exampleEnabled ∧
    disable exampleBase = exampleBase :=
  ⟨(lifecycle_idempotent
      { height := some 40, opacity := some DEFAULT_OPACITY } exampleBase).1,
   (lifecycle_idempotent
      { height := some 40, opacity := some DEFAULT_OPACITY }
      exampleEnabled).2.1 (by decide),
   (lifecycle_idempotent
      { height := some 40, opacity := some DEFAULT_OPACITY }
      exampleBase).2.2.2 (by decide)⟩

/-! ## C6 -/

/-- C6: in every reachable state — i.e. after any sequence of operations
from injection — the render surface exists iff `enabled`, the listeners are
attached iff `enabled`, and a frame callback is scheduled iff `enabled`:
never listeners or a scheduled callback without a surface, never a surface
without listeners and loop. -/
theorem surface_iff_enabled (w h : ℚ) (r : StorageResult) (st : RulerState)
    (hr : Reachable w h r st) :
    (st.overlay.isSome = true ↔ st.isEnabled = true) ∧
    (st.listeners = true ↔ st.isEnabled = true) ∧
    (st.rafId.isSome = true ↔ st.isEnabled = true) ∧
    (st.queued ≠ [] ↔ st.isEnabled = true) := by
  obtain ⟨h1, h2, h3, h4⟩ := reachable_inv w h r st hr
  refine ⟨by rw [h1], by rw [h2], by rw [h3], ?_⟩
  rw [h4, ← h3]
  cases st.rafId <;> simp

/-- C6, witness: the biconditionals at the concrete enabled reachable
state. -/
theorem surface_iff_enabled_witness :
    (exampleEnabled.overlay.isSome = true ↔ exampleEnabled.isEnabled = true) ∧
    (exampleEnabled.listeners = true ↔ exampleEnabled.isEnabled = true) ∧
    (exampleEnabled.rafId.isSome = true ↔ exampleEnabled.isEnabled = true) ∧
    (exampleEnabled.queued ≠ [] ↔ exampleEnabled.isEnabled = true) :=
  surface_iff_enabled 100 800 .err exampleEnabled exampleEnabled_reachable

/-! ## C7 -/

/-- C7: when the initialization storage read throws (`StorageResult.err`,
e.g. a restricted page context), `init` — a total function here precisely
because the script catches the error, so nothing propagates to the caller —
leaves the controller exactly as if disabled: no surface, no listeners, no
queued frame callback, no `rafId`; and the message listener is still
registered, so a later toggle-on command enables the ruler normally.  No
partially-initialized state results. -/
theorem init_storage_failure_safe (w h : ℚ) :
    (init .err (mkInitial w h)).isEnabled = false ∧
    (init .err (mkInitial w h)).overlay = none ∧
    (init .err (mkInitial w h)).listeners = false ∧
    (init .err (mkInitial w h)).queued = [] ∧
    (init .err (mkInitial w h)).rafId = none ∧
    (init .err (mkInitial w h)).msgRegistered = true ∧
    (∀ s : Option Settings,
      ((handleMessage (.focusRulerToggle true s)
          (init .err (mkInitial w h))).1).isEnabled = true ∧
      ((handleMessage (.focusRulerToggle true s)
          (init .err (mkInitial w h))).1).overlay.isSome = true) := by
  refine ⟨rfl, rfl, rfl, rfl, rfl, rfl, ?_⟩
  intro s
  constructor <;>
    simp [handleMessage, init, mkInitial, enable, createOverlay, startRaf,
      rafRequest]

/-! ## C8 -/

/-- C8: a `REAPPLY_STATE` whose snapshot has the ruler enabled with height 60
and opacity 0.3, handled while disabled, leaves the controller enabled with
an existing surface carrying thickness 60 and intensity 0.3; a snapshot with
the ruler disabled is handled as `disable()`. -/
theorem reapply_state_applies_snapshot (st : RulerState)
    (hdis : st.isEnabled = false) :
    ((handleMessage (.reapplyState (some
        { focusRulerEnabled := true, rulerHeight := some 60,
          dimOpacity := some (3/10) })) st).1.isEnabled = true ∧
      (handleMessage (.reapplyState (some
        { focusRulerEnabled := true, rulerHeight := some 60,
          dimOpacity := some (3/10) })) st).1.overlay.map
          (fun o => (o.rulerHeight, o.dimOpacity)) = some (60, 3/10)) ∧
    (∀ (st2 : RulerState) (snap : Snapshot), snap.focusRulerEnabled = false →
      (handleMessage (.reapplyState (some snap)) st2).1 = disable st2) := by
  constructor
  · constructor <;>
      simp [handleMessage, enable, hdis, createOverlay, startRaf, rafRequest]
  · intro st2 snap hsnap
    simp [handleMessage, hsnap]

/-- C8, witness: the enabling snapshot on the fresh disabled context, and a
disabling snapshot on the enabled example state. -/
theorem reapply_state_applies_snapshot_witness :
    (handleMessage (.reapplyState (some
        { focusRulerEnabled := true, rulerHeight := some 60,
          dimOpacity := some (3/10) })) exampleBase).1.isEnabled = true ∧
    (handleMessage (.reapplyState (some
        { focusRulerEnabled := true, rulerHeight := some 60,
          dimOpacity := some (3/10) })) exampleBase).1.overlay.map
        (fun o => (o.rulerHeight, o.dimOpacity)) = some (60, 3/10) ∧
    (handleMessage (.reapplyState (some
        ({ focusRulerEnabled := false } : Snapshot))) exampleEnabled).1
      = disable exampleEnabled :=
  let H := reapply_state_applies_snapshot exampleBase (by decide)
  ⟨H.1.1, H.1.2, H.2 exampleEnabled { focusRulerEnabled := false } rfl⟩

/-! ## C9 -/

/-- C9: on first enable in a context of viewport height `h` the committed
cursor position is `currentY = h / 2` (`DEFAULT_Y`), e.g. 400 for an
800px-tall viewport; the surface is created at that `--ruler-y`; a state
query reports it; and it stays reported until a tick commits a pointer
sample — a mouse move alone never changes `currentY`, nor does a tick with
no pending sample. -/
theorem initial_cursorY_half_viewport (w h : ℚ) (s : Settings) :
    (mkInitial w h).currentY = h / 2 ∧
    (mkInitial w 800).currentY = 400 ∧
    (enable s (mkInitial w h)).overlay.map Overlay.rulerY = some (h / 2) ∧
    (handleMessage .focusRulerGetState (enable s (mkInitial w h))).2
      = some { ok := true, enabled := some true, y := some (h / 2) } ∧
    (∀ (y : ℚ) (st : RulerState),
      (step (.mouseMove y) st).currentY = st.currentY) ∧
    (∀ (id : Nat) (st : RulerState), st.pendingY = none →
      (step (.tick id) st).currentY = st.currentY) := by
  refine ⟨rfl, by norm_num [mkInitial], ?_, ?_, ?_, ?_⟩
  · simp [enable, mkInitial, createOverlay, startRaf, rafRequest]
  · simp [handleMessage, enable, mkInitial, createOverlay, startRaf,
      rafRequest]
  · intro y st
    by_cases hl : st.listeners <;> simp [step, hl, onMouseMove]
  · intro id st hp
    by_cases hm : id ∈ st.queued
    · by_cases he : st.isEnabled
      · simp [step, hm, loopBody, he, hp, startRaf, rafRequest]
      · have hb : st.isEnabled = false := by simpa using he
        simp [step, hm, loopBody, hb]
    · simp [step, hm]

/-- C9, witness: viewport 100 × 800, and a sample-free tick on the fresh
context. -/
theorem initial_cursorY_half_viewport_witness :
    (mkInitial 100 800).currentY = 800 / 2 ∧
    (enable { height := some 40, opacity := some (3/4) }
        (mkInitial 100 800)).overlay.map Overlay.rulerY = some (800 / 2) ∧
    (step (.tick 5) exampleBase).currentY = exampleBase.currentY :=
  let H := initial_cursorY_half_viewport 100 800
    { height := some 40, opacity := some (3/4) }
  ⟨H.1, H.2.2.1, H.2.2.2.2.2 5 exampleBase (by decide)⟩

/-! ## C10 -/

/-- C10: `disable()` leaves `pendingY` and `currentY` untouched — a sample
delivered before `disable()` and not yet committed stays buffered across the
disabled period and survives a subsequent `enable` — and the first tick
after re-enable commits exactly that stale pre-disable sample to `currentY`
and to the surface's `--ruler-y`. -/
theorem disable_keeps_pending_and_current (st : RulerState) (i : Nat) (y : ℚ)
    (s : Settings)
    (hen : st.isEnabled = true) (hra : st.rafId = some i)
    (hq : st.queued = [i]) (hp : st.pendingY = some y) :
    (disable st).pendingY = some y ∧
    (disable st).currentY = st.currentY ∧
    (enable s (disable st)).pendingY = some y ∧
    (enable s (disable st)).currentY = st.currentY ∧
    (step (.tick st.nextId) (enable s (disable st))).currentY = y ∧
    (step (.tick st.nextId) (enable s (disable st))).overlay.map
        Overlay.rulerY = some y := by
  have hd : disable st
      = { st with
            isEnabled := false
            rafId := none
            queued := []
            listeners := false
            overlay := none } := by
    simp [disable, hen, stopRaf, hra, rafCancel, destroyOverlay, hq]
  rw [hd]
  refine ⟨hp, rfl, ?_, ?_, ?_, ?_⟩ <;>
    simp [enable, createOverlay, startRaf, rafRequest, step, loopBody, hp,
      setVar]

/-- C10, witness: sample 120 buffered in the enabled example state, then
disable, re-enable without settings, and the next tick. -/
theorem disable_keeps_pending_and_current_witness :
    (disable (step (.mouseMove 120) exampleEnabled)).pendingY = some 120 ∧
    (disable (step (.mouseMove 120) exampleEnabled)).currentY
      = (step (.mouseMove 120) exampleEnabled).currentY ∧
    (enable {} (disable (step (.mouseMove 120) exampleEnabled))).pendingY
      = some 120 ∧
    (step (.tick 1)
        (enable {} (disable (step (.mouseMove 120) exampleEnabled)))).currentY
      = 120 ∧
    (step (.tick 1)
        (enable {} (disable (step (.mouseMove 120)
          exampleEnabled)))).overlay.map Overlay.rulerY = some 120 :=
  let H := disable_keeps_pending_and_current
    (step (.mouseMove 120) exampleEnabled) 0 120 {}
    (by decide) (by decide) (by decide) (by decide)
  ⟨H.1, H.2.1, H.2.2.1, H.2.2.2.2.1, H.2.2.2.2.2⟩

end FocusRuler
